import Mathlib

/-!
Formal model of the backstory-consistency pipeline
(agents/base.py, agents/judge.py, reasoning/debate.py,
reasoning/constraints.py, scoring/scorer.py, retrieval/retrieve.py).

Python strings are modelled as Lean `String`s, with the Python string
operations (`strip`, `upper`, `split`, `lstrip`, `replace`, slicing)
implemented explicitly over the character list, restricted to the ASCII
behaviour the pipeline exercises.  Python floats are modelled as exact
rationals (`ℚ`); `float(...)` is modelled as a parser of decimal literals
(optional sign, digits, optional fractional part), with every other form
treated as a parse failure.  LLM calls are modelled by passing the
generation outcome (`Option String`, where `none` stands for a falsy
response) as an explicit argument.
-/

/-- Python `str.strip()` whitespace set (the ASCII part). -/
def pySpace (c : Char) : Bool :=
  c = ' ' || c = '\t' || c = '\n' || c = '\r' || c = '\x0b' || c = '\x0c'

/-- Python `len(s)` (number of characters). -/
def pyLen (s : String) : Nat := s.toList.length

/-- Python `s.strip()`: remove leading and trailing whitespace. -/
def pyStrip (s : String) : String :=
  String.mk (((s.toList.dropWhile pySpace).reverse.dropWhile pySpace).reverse)

/-- Python `s.upper()` (ASCII case map). -/
def pyUpper (s : String) : String :=
  String.mk (s.toList.map Char.toUpper)

/-- Python `s.startswith(pre)`. -/
def pyStartsWith (s pre : String) : Bool :=
  pre.toList.isPrefixOf s.toList

/-- Python `s.split(sep)` for a one-character separator, on char lists. -/
def pySplitCharList (sep : Char) : List Char → List (List Char)
  | [] => [[]]
  | c :: rest =>
    if c = sep then [] :: pySplitCharList sep rest
    else
      match pySplitCharList sep rest with
      | [] => [[c]]
      | h :: t => (c :: h) :: t

/-- Python `s.split(sep)` for a one-character separator. -/
def pySplit (sep : Char) (s : String) : List String :=
  (pySplitCharList sep s.toList).map String.mk

/-- Python `s.split(sep, 1)[1]` for a one-character separator: everything
after the first occurrence (empty when the separator is absent; the code
only calls this under a `startswith` guard that ensures a colon exists). -/
def afterFirstChar (sep : Char) (s : String) : String :=
  String.mk ((s.toList.dropWhile (fun c => c ≠ sep)).drop 1)

/-- Python `s.lstrip(chars)`: drop leading characters belonging to `chars`. -/
def pyLstrip (chars : List Char) (s : String) : String :=
  String.mk (s.toList.dropWhile (fun c => c ∈ chars))

/-- Python `s.replace(old, '')` for a one-character `old`: remove every
occurrence. -/
def pyRemoveAll (old : Char) (s : String) : String :=
  String.mk (s.toList.filter (fun c => c ≠ old))

/-- Python `s[:n]`: the first `n` characters. -/
def pySlice (s : String) (n : Nat) : String :=
  String.mk (s.toList.take n)

/-- Python `max(a, b)` on numbers: keep `a` unless `b` is larger. -/
def pyMax (a b : ℚ) : ℚ := if a < b then b else a

/-- Python `min(a, b)` on numbers: keep `a` unless `b` is smaller. -/
def pyMin (a b : ℚ) : ℚ := if b < a then b else a

/-- Value of a digit string read in base 10. -/
def digitsToNat (l : List Char) : Nat :=
  l.foldl (fun a c => a * 10 + (c.toNat - 48)) 0

/-- Syntactic part of Python `float(s)`, modelled on decimal literals:
optional sign, integer digits, optional `.` and fractional digits (at
least one digit overall).  The result is `(negative, integer digits,
fractional digits)`.  Exotic forms (`inf`, `nan`, exponents,
underscores) are modelled as parse failures; the pipeline's
`except: pass` makes any failure keep the previous value. -/
def parseDecimalParts (s : String) : Option (Bool × List Char × List Char) :=
  let signAndRest : Bool × List Char :=
    match s.toList with
    | '-' :: r => (true, r)
    | '+' :: r => (false, r)
    | r => (false, r)
  let neg := signAndRest.1
  let l := signAndRest.2
  let intPart := l.takeWhile Char.isDigit
  let rest := l.dropWhile Char.isDigit
  match rest with
  | [] => if intPart = [] then none else some (neg, intPart, [])
  | '.' :: frac =>
    if frac.all Char.isDigit ∧ ¬(intPart = [] ∧ frac = []) then
      some (neg, intPart, frac)
    else none
  | _ => none

/-- Numeric value of a parsed decimal literal. -/
def partsToRat (p : Bool × List Char × List Char) : ℚ :=
  (if p.1 then -1 else 1) *
    ((digitsToNat p.2.1 : ℚ) + (digitsToNat p.2.2 : ℚ) / (10 : ℚ) ^ p.2.2.length)

/-- Python `float(s)` on decimal literals, as an exact rational. -/
def parseDecimal (s : String) : Option ℚ :=
  (parseDecimalParts s).map partsToRat

/-- A judgment dict `{verdict, confidence, reasoning}` as produced by
`BaseAgent.extract_judgment` and consumed by `JudgeAgent.deliberate`. -/
structure Judgment where
  verdict : String
  confidence : ℚ
  reasoning : String
deriving Repr, DecidableEq

/-- The CONFIDENCE-line handling inside `BaseAgent.extract_judgment`
(base.py 67-78): take the substring after the first colon, strip it,
remove every `%` and strip again, parse as a float; a value above `1.0`
is reinterpreted as a percentage; the result is clamped to `[0, 1]`.
`none` models the `except: pass` path (previous value kept). -/
def parseConfidence (line : String) : Option ℚ :=
  let confStr := pyStrip (afterFirstChar ':' line)
  let confStr2 := pyStrip (pyRemoveAll '%' confStr)
  (parseDecimal confStr2).map fun confidence =>
    let confidence := if confidence > 1 then confidence / 100 else confidence
    pyMax 0 (pyMin 1 confidence)

/-- One iteration of the line loop in `BaseAgent.extract_judgment`
(base.py 59-83): the `VERDICT:`/`CONFIDENCE:`/`REASONING:` prefixes are
matched on the upper-cased line, and each field is updated only when its
payload validates. -/
def processLine (j : Judgment) (line : String) : Judgment :=
  let lineUpper := pyUpper line
  if pyStartsWith lineUpper "VERDICT:" = true then
    let verdict := pyUpper (pyStrip (afterFirstChar ':' line))
    if verdict = "CONSISTENT" ∨ verdict = "CONTRADICTORY" ∨ verdict = "INSUFFICIENT" then
      { j with verdict := verdict }
    else j
  else if pyStartsWith lineUpper "CONFIDENCE:" = true then
    match parseConfidence line with
    | some c => { j with confidence := c }
    | none => j
  else if pyStartsWith lineUpper "REASONING:" = true then
    let reasoning := pyStrip (afterFirstChar ':' line)
    if reasoning ≠ "" then { j with reasoning := reasoning } else j
  else j

/-- `BaseAgent.extract_judgment` (base.py 36-85): a falsy response yields
the fixed empty-response judgment; otherwise the response is split on
newlines and folded through `processLine`, starting from the defaults
`{INSUFFICIENT, 0.0, full raw text}`. -/
def extract_judgment (response : String) : Judgment :=
  if response = "" then
    { verdict := "INSUFFICIENT", confidence := 0,
      reasoning := "LLM returned empty response" }
  else
    (pySplit '\n' response).foldl processLine
      { verdict := "INSUFFICIENT", confidence := 0, reasoning := response }

/-- `JudgeAgent.deliberate` (judge.py 10-85).  The LLM arbitration call is
modelled by the `response : Option String` argument: `none` stands for a
falsy `llm.generate` result (the code then falls back to the prosecutor's
judgment), `some r` for a generated text that is then parsed by
`extract_judgment` (a falsy generated text is also modelled by `some ""`,
which `extract_judgment` maps to its empty-response judgment; the code
reaches neither on the three early-return rules). -/
def deliberate (p d : Judgment) (response : Option String) : Judgment :=
  if p.verdict = "INSUFFICIENT" ∧ d.verdict = "INSUFFICIENT" then
    { verdict := "INSUFFICIENT", confidence := 0,
      reasoning := "Both sides lack sufficient evidence" }
  else if p.verdict = "CONTRADICTORY" ∧ p.confidence > 7/10 then
    { verdict := "CONTRADICTORY", confidence := p.confidence,
      reasoning := "Hard contradiction found: " ++ p.reasoning }
  else if p.verdict = "CONSISTENT" ∧ d.verdict = "CONSISTENT" then
    { verdict := "CONSISTENT", confidence := (p.confidence + d.confidence) / 2,
      reasoning := "Both sides agree: consistent" }
  else
    match response with
    | none => p
    | some r => extract_judgment r

/-- Whether `JudgeAgent.deliberate` reaches its `llm.generate` arbitration
call: it does exactly when none of the three early-return rules fires. -/
def judge_calls_llm (p d : Judgment) : Bool :=
  !((p.verdict == "INSUFFICIENT" && d.verdict == "INSUFFICIENT") ||
    (p.verdict == "CONTRADICTORY" && decide (p.confidence > 7/10)) ||
    (p.verdict == "CONSISTENT" && d.verdict == "CONSISTENT"))

/-- The character set of Python `line.lstrip('0123456789.-•)')` in
`DebateOrchestrator.extract_claims` (debate.py 64). -/
def numberingChars : List Char :=
  ['0', '1', '2', '3', '4', '5', '6', '7', '8', '9', '.', '-', '•', ')']

/-- Whether a stripped line opens like a numbered/bulleted claim
(debate.py 62): first character a digit, or the line starts with `-` or
`•`. -/
def startsNumbered (line : String) : Bool :=
  (match line.toList with
   | [] => false
   | c :: _ => c.isDigit) ||
  pyStartsWith line "-" || pyStartsWith line "•"

/-- The per-line claim parser of `DebateOrchestrator.extract_claims`
(debate.py 60-67): strip the raw line; keep it only when it opens like a
numbered/bulleted item; remove the leading numbering/bullet characters
and strip again; keep the result only when it is non-empty and longer
than 15 characters. -/
def claimOfLine (rawLine : String) : Option String :=
  let line := pyStrip rawLine
  if line ≠ "" ∧ startsNumbered line = true then
    let claim := pyStrip (pyLstrip numberingChars line)
    if claim ≠ "" ∧ 15 < pyLen claim then some claim else none
  else none

/-- The numbered-list parsing loop of `DebateOrchestrator.extract_claims`
(debate.py 59-67): appending each kept claim equals filtering the split
lines through `claimOfLine`. -/
def parseClaims (response : String) : List String :=
  (pySplit '\n' response).filterMap claimOfLine

/-- `DebateOrchestrator.extract_claims` (debate.py 19-75).  The
`llm.generate` call is modelled by the `response : Option String`
argument (`none` and `some ""` are the falsy outcomes).  `maxClaimsCfg`
is `config['agents']['max_claims_per_backstory']`. -/
def extract_claims (maxClaimsCfg : Nat) (backstory : String)
    (response : Option String) : List String :=
  let max_claims := min 5 maxClaimsCfg
  let sentenceFallback :=
    ((pySplit '.' backstory).filterMap fun s =>
      if 20 < pyLen (pyStrip s) then some (pyStrip s ++ ".") else none).take max_claims
  match response with
  | none => sentenceFallback
  | some r =>
    if r = "" then sentenceFallback
    else
      let claims := parseClaims r
      let claims2 := if claims = [] then [pySlice backstory 200] else claims
      claims2.take max_claims

/-- A deliberation record
`{claim, prosecutor, defense, final}` (debate.py 110-115). -/
structure Deliberation where
  claim : String
  prosecutor : Judgment
  defense : Judgment
  final : Judgment
deriving Repr, DecidableEq

/-- The classification dict of `ConstraintTracker.classify_constraints`
(constraints.py 17-30): four counts, one per verdict bucket. -/
structure Classification where
  hard_contradictions : Nat
  soft_contradictions : Nat
  consistent_claims : Nat
  insufficient_evidence : Nat
deriving Repr, DecidableEq

/-- One iteration of the loop in
`ConstraintTracker.classify_constraints` (constraints.py 23-36):
CONTRADICTORY with confidence above 0.7 is a hard contradiction,
CONTRADICTORY otherwise a soft one, CONSISTENT a consistent claim, and
anything else insufficient evidence. -/
def classifyStep (c : Classification) (delib : Deliberation) : Classification :=
  let verdict := delib.final.verdict
  let confidence := delib.final.confidence
  if verdict = "CONTRADICTORY" then
    if confidence > 7/10 then
      { c with hard_contradictions := c.hard_contradictions + 1 }
    else
      { c with soft_contradictions := c.soft_contradictions + 1 }
  else if verdict = "CONSISTENT" then
    { c with consistent_claims := c.consistent_claims + 1 }
  else
    { c with insufficient_evidence := c.insufficient_evidence + 1 }

/-- `ConstraintTracker.classify_constraints` (constraints.py 6-38). -/
def classify_constraints (deliberations : List Deliberation) : Classification :=
  deliberations.foldl classifyStep
    { hard_contradictions := 0, soft_contradictions := 0,
      consistent_claims := 0, insufficient_evidence := 0 }

/-- `ConstraintTracker.has_critical_violations` (constraints.py 42-48). -/
def has_critical_violations (c : Classification) : Bool :=
  c.hard_contradictions > 0

/-- `ConstraintTracker.get_evidence_coverage` (constraints.py 50-60). -/
def get_evidence_coverage (c : Classification) : ℚ :=
  let total := c.hard_contradictions + c.soft_contradictions +
    c.consistent_claims + c.insufficient_evidence
  if total = 0 then 0
  else ((total : ℚ) - (c.insufficient_evidence : ℚ)) / (total : ℚ)

/-- The `config['scoring']` weights read by `BackstoryScorer.__init__`
(scorer.py 9-16). -/
structure ScoringConfig where
  hard_contradiction_weight : ℚ
  soft_contradiction_weight : ℚ
  support_weight : ℚ
  insufficient_evidence_threshold : ℚ
deriving Repr, DecidableEq

/-- `BackstoryScorer.compute_score` (scorer.py 18-59): label 1 means
Consistent, 0 means Contradictory.  The float percent formatting of the
rule-2 rationale is modelled as a plain decimal rendering. -/
def compute_score (cfg : ScoringConfig) (deliberations : List Deliberation) :
    Nat × String :=
  let classification := classify_constraints deliberations
  if has_critical_violations classification then
    (0, "CONTRADICTORY: Found " ++ toString classification.hard_contradictions ++
      " hard contradiction(s) that cannot be reconciled with the novel.")
  else
    let coverage := get_evidence_coverage classification
    if coverage < 1 - cfg.insufficient_evidence_threshold then
      (0, "CONTRADICTORY (conservative): Only " ++ toString (coverage * 100) ++
        "% of claims have sufficient evidence. Insufficient data to validate backstory.")
    else
      let score : ℚ := 0
        - (classification.hard_contradictions : ℚ) * cfg.hard_contradiction_weight
        - (classification.soft_contradictions : ℚ) * cfg.soft_contradiction_weight
        + (classification.consistent_claims : ℚ) * cfg.support_weight
      if score ≥ 0 then
        (1, "CONSISTENT: " ++ toString classification.consistent_claims ++
          " claims supported, " ++ toString classification.soft_contradictions ++
          " minor conflicts (resolvable).")
      else
        (0, "CONTRADICTORY: " ++ toString classification.soft_contradictions ++
          " contradictions outweigh " ++ toString classification.consistent_claims ++
          " supporting claims.")

/-- Squared Euclidean norm of an embedding vector, the exact-arithmetic
counterpart of `np.linalg.norm` in `EvidenceRetriever.retrieve`
(retrieve.py 34-39): the norm is zero exactly when the squared norm is. -/
def normSq (v : List ℚ) : ℚ := (v.map fun x => x * x).sum

/-- The divisor of the cosine-similarity expression in
`EvidenceRetriever.retrieve` (retrieve.py 34-39), squared: the code
divides `np.dot(embeddings, query)` elementwise by
`norm(embeddings, axis=1) * norm(query)` with no guard, so the division
for a chunk embedding `e` is a division by zero exactly when this value
is zero. -/
def cosineDenomSq (e query : List ℚ) : ℚ := normSq e * normSq query

/-- Whether the unguarded similarity computation of
`EvidenceRetriever.retrieve` performs a division by zero for some stored
chunk embedding. -/
def retrieve_divides_by_zero (embeddings : List (List ℚ)) (query : List ℚ) : Bool :=
  embeddings.any fun e => cosineDenomSq e query == 0

/-- Whether a line of the response makes `extract_judgment` overwrite the
default verdict: it starts (upper-cased) with `VERDICT:` and the payload
after the colon validates to one of the three verdicts. -/
def setsVerdict (line : String) : Prop :=
  pyStartsWith (pyUpper line) "VERDICT:" = true ∧
  (pyUpper (pyStrip (afterFirstChar ':' line)) = "CONSISTENT" ∨
   pyUpper (pyStrip (afterFirstChar ':' line)) = "CONTRADICTORY" ∨
   pyUpper (pyStrip (afterFirstChar ':' line)) = "INSUFFICIENT")

instance : DecidablePred setsVerdict := fun l => by unfold setsVerdict; infer_instance

/-- Whether a line of the response makes `extract_judgment` overwrite the
default confidence: it starts (upper-cased) with `CONFIDENCE:` and the
payload parses as a float (otherwise `except: pass` keeps the default). -/
def setsConfidence (line : String) : Prop :=
  pyStartsWith (pyUpper line) "CONFIDENCE:" = true ∧
  (parseConfidence line).isSome = true

instance : DecidablePred setsConfidence := fun l => by
  unfold setsConfidence; infer_instance

/-- Whether a line of the response makes `extract_judgment` overwrite the
default reasoning: it starts (upper-cased) with `REASONING:` and the
stripped payload is non-empty. -/
def setsReasoning (line : String) : Prop :=
  pyStartsWith (pyUpper line) "REASONING:" = true ∧
  pyStrip (afterFirstChar ':' line) ≠ ""

instance : DecidablePred setsReasoning := fun l => by
  unfold setsReasoning; infer_instance

/-- Modelled from the spec's words for the CONFIDENCE grammar: the
substring after the first colon, trimmed, with any TRAILING `%`
stripped (a `%` elsewhere is left in place), parsed and normalized as
the code does.  This is the comparison point for the code's
`replace('%', '')`, which removes every `%`. -/
def specTrailingPercentConfidence (line : String) : Option ℚ :=
  let confStr := pyStrip (afterFirstChar ':' line)
  let confStr2 := String.mk ((confStr.toList.reverse.dropWhile (fun c => c = '%')).reverse)
  (parseDecimal confStr2).map fun confidence =>
    let confidence := if confidence > 1 then confidence / 100 else confidence
    pyMax 0 (pyMin 1 confidence)

/-- Six deliberations whose final verdicts classify as one hard
contradiction and five consistent claims. -/
def exampleDeliberations : List Deliberation :=
  { claim := "c0", prosecutor := { verdict := "CONTRADICTORY", confidence := 1, reasoning := "p" },
    defense := { verdict := "CONSISTENT", confidence := 1, reasoning := "d" },
    final := { verdict := "CONTRADICTORY", confidence := 1, reasoning := "f" } } ::
  (List.replicate 5
    { claim := "c", prosecutor := { verdict := "CONSISTENT", confidence := 1, reasoning := "p" },
      defense := { verdict := "CONSISTENT", confidence := 1, reasoning := "d" },
      final := { verdict := "CONSISTENT", confidence := 1, reasoning := "f" } })

/-- A concrete scoring configuration for evaluating `compute_score`. -/
def exampleScoringConfig : ScoringConfig :=
  { hard_contradiction_weight := 5, soft_contradiction_weight := 1,
    support_weight := 1, insufficient_evidence_threshold := 3/10 }

/-! ## Helper lemmas -/

theorem pyClamp_bounds (x : ℚ) : 0 ≤ pyMax 0 (pyMin 1 x) ∧ pyMax 0 (pyMin 1 x) ≤ 1 := by
  unfold pyMax pyMin
  split_ifs <;> constructor <;> linarith

theorem parseConfidence_clamped (line : String) (c : ℚ)
    (h : parseConfidence line = some c) : 0 ≤ c ∧ c ≤ 1 := by
  simp only [parseConfidence] at h
  cases hd : parseDecimal (pyStrip (pyRemoveAll '%' (pyStrip (afterFirstChar ':' line)))) with
  | none => rw [hd] at h; cases h
  | some x =>
    rw [hd] at h
    simp only [Option.map_some', Option.some.injEq] at h
    rw [← h]
    exact pyClamp_bounds _

theorem processLine_confidence_bounds (j : Judgment) (line : String)
    (h0 : 0 ≤ j.confidence) (h1 : j.confidence ≤ 1) :
    0 ≤ (processLine j line).confidence ∧ (processLine j line).confidence ≤ 1 := by
  simp only [processLine]
  split_ifs
  · exact ⟨h0, h1⟩
  · exact ⟨h0, h1⟩
  · cases hp : parseConfidence line with
    | none => exact ⟨h0, h1⟩
    | some c => exact parseConfidence_clamped line c hp
  · exact ⟨h0, h1⟩
  · exact ⟨h0, h1⟩
  · exact ⟨h0, h1⟩

theorem foldl_processLine_confidence_bounds (lines : List String) (j : Judgment)
    (h0 : 0 ≤ j.confidence) (h1 : j.confidence ≤ 1) :
    0 ≤ (lines.foldl processLine j).confidence ∧
    (lines.foldl processLine j).confidence ≤ 1 := by
  induction lines generalizing j with
  | nil => exact ⟨h0, h1⟩
  | cons l ls ih =>
    simp only [List.foldl_cons]
    obtain ⟨a, b⟩ := processLine_confidence_bounds j l h0 h1
    exact ih _ a b

theorem processLine_verdict_const (j : Judgment) (line : String)
    (h : ¬ setsVerdict line) : (processLine j line).verdict = j.verdict := by
  simp only [processLine]
  split_ifs with h1 h2 h3 h4 h5
  · exact absurd ⟨h1, h2⟩ h
  · rfl
  · cases parseConfidence line <;> rfl
  · rfl
  · rfl
  · rfl

theorem processLine_confidence_const (j : Judgment) (line : String)
    (h : ¬ setsConfidence line) : (processLine j line).confidence = j.confidence := by
  simp only [processLine]
  split_ifs with h1 h2 h3 h4 h5
  · rfl
  · rfl
  · cases hp : parseConfidence line with
    | none => rfl
    | some c => exact absurd ⟨h3, by rw [hp]; rfl⟩ h
  · rfl
  · rfl
  · rfl

theorem processLine_reasoning_const (j : Judgment) (line : String)
    (h : ¬ setsReasoning line) : (processLine j line).reasoning = j.reasoning := by
  simp only [processLine]
  split_ifs with h1 h2 h3 h4 h5
  · rfl
  · rfl
  · cases parseConfidence line <;> rfl
  · exact absurd ⟨h4, h5⟩ h
  · rfl
  · rfl

theorem foldl_processLine_verdict_const (lines : List String) (j : Judgment)
    (h : ∀ l ∈ lines, ¬ setsVerdict l) :
    (lines.foldl processLine j).verdict = j.verdict := by
  induction lines generalizing j with
  | nil => rfl
  | cons l ls ih =>
    simp only [List.foldl_cons]
    rw [ih _ (fun x hx => h x (List.mem_cons_of_mem l hx)),
      processLine_verdict_const j l (h l (List.mem_cons_self l _))]

theorem foldl_processLine_confidence_const (lines : List String) (j : Judgment)
    (h : ∀ l ∈ lines, ¬ setsConfidence l) :
    (lines.foldl processLine j).confidence = j.confidence := by
  induction lines generalizing j with
  | nil => rfl
  | cons l ls ih =>
    simp only [List.foldl_cons]
    rw [ih _ (fun x hx => h x (List.mem_cons_of_mem l hx)),
      processLine_confidence_const j l (h l (List.mem_cons_self l _))]

theorem foldl_processLine_reasoning_const (lines : List String) (j : Judgment)
    (h : ∀ l ∈ lines, ¬ setsReasoning l) :
    (lines.foldl processLine j).reasoning = j.reasoning := by
  induction lines generalizing j with
  | nil => rfl
  | cons l ls ih =>
    simp only [List.foldl_cons]
    rw [ih _ (fun x hx => h x (List.mem_cons_of_mem l hx)),
      processLine_reasoning_const j l (h l (List.mem_cons_self l _))]

/-! ## Claim theorems -/

/-- C1: whenever the prosecutor's verdict is CONTRADICTORY with
confidence above 0.7, `JudgeAgent.deliberate` returns verdict
CONTRADICTORY at the prosecutor's confidence, for every defense judgment
and every arbitration outcome, and the arbitration generation call is
not reached (rule 2 fires before any arbitration). -/
theorem judge_hard_contradiction_rule (p d : Judgment) (response : Option String)
    (hv : p.verdict = "CONTRADICTORY") (hc : p.confidence > 7/10) :
    (deliberate p d response).verdict = "CONTRADICTORY" ∧
    (deliberate p d response).confidence = p.confidence ∧
    judge_calls_llm p d = false := by
  have hne : ¬(p.verdict = "INSUFFICIENT" ∧ d.verdict = "INSUFFICIENT") := by
    rintro ⟨h1, -⟩
    rw [hv] at h1
    exact absurd h1 (by decide)
  have hres : deliberate p d response =
      { verdict := "CONTRADICTORY", confidence := p.confidence,
        reasoning := "Hard contradiction found: " ++ p.reasoning } := by
    unfold deliberate
    rw [if_neg hne, if_pos ⟨hv, hc⟩]
  refine ⟨by rw [hres], by rw [hres], ?_⟩
  simp [judge_calls_llm, hv, hc]

/-- C1 witness: prosecutor `{CONTRADICTORY, 0.9}` against defense
`{CONSISTENT, 0.9}`. -/
theorem judge_hard_contradiction_rule_witness :
    (deliberate { verdict := "CONTRADICTORY", confidence := 9/10, reasoning := "pr" }
      { verdict := "CONSISTENT", confidence := 9/10, reasoning := "dr" } none).verdict =
      "CONTRADICTORY" ∧
    (deliberate { verdict := "CONTRADICTORY", confidence := 9/10, reasoning := "pr" }
      { verdict := "CONSISTENT", confidence := 9/10, reasoning := "dr" } none).confidence =
      9/10 ∧
    judge_calls_llm { verdict := "CONTRADICTORY", confidence := 9/10, reasoning := "pr" }
      { verdict := "CONSISTENT", confidence := 9/10, reasoning := "dr" } = false :=
  judge_hard_contradiction_rule _ _ none rfl (by norm_num)

/-- C5: when both the prosecutor and the defense return CONSISTENT,
`JudgeAgent.deliberate` returns CONSISTENT at the arithmetic mean of the
two confidences, and the arbitration generation call is not reached. -/
theorem judge_consensus_mean (p d : Judgment) (response : Option String)
    (hp : p.verdict = "CONSISTENT") (hd : d.verdict = "CONSISTENT") :
    (deliberate p d response).verdict = "CONSISTENT" ∧
    (deliberate p d response).confidence = (p.confidence + d.confidence) / 2 ∧
    judge_calls_llm p d = false := by
  have h1 : ¬(p.verdict = "INSUFFICIENT" ∧ d.verdict = "INSUFFICIENT") := by
    rintro ⟨h, -⟩
    rw [hp] at h
    exact absurd h (by decide)
  have h2 : ¬(p.verdict = "CONTRADICTORY" ∧ p.confidence > 7/10) := by
    rintro ⟨h, -⟩
    rw [hp] at h
    exact absurd h (by decide)
  have hres : deliberate p d response =
      { verdict := "CONSISTENT", confidence := (p.confidence + d.confidence) / 2,
        reasoning := "Both sides agree: consistent" } := by
    unfold deliberate
    rw [if_neg h1, if_neg h2, if_pos ⟨hp, hd⟩]
  refine ⟨by rw [hres], by rw [hres], ?_⟩
  simp [judge_calls_llm, hp, hd]

/-- C5 witness: confidences 0.6 and 0.8 give final confidence exactly
0.7. -/
theorem judge_consensus_mean_witness :
    (deliberate { verdict := "CONSISTENT", confidence := 3/5, reasoning := "pr" }
      { verdict := "CONSISTENT", confidence := 4/5, reasoning := "dr" } none).verdict =
      "CONSISTENT" ∧
    (deliberate { verdict := "CONSISTENT", confidence := 3/5, reasoning := "pr" }
      { verdict := "CONSISTENT", confidence := 4/5, reasoning := "dr" } none).confidence =
      7/10 := by
  have h := judge_consensus_mean
    { verdict := "CONSISTENT", confidence := 3/5, reasoning := "pr" }
    { verdict := "CONSISTENT", confidence := 4/5, reasoning := "dr" } none rfl rfl
  refine ⟨h.1, ?_⟩
  rw [h.2.1]
  norm_num

/-- C3 (amended): for every input, the parsed confidence lies in
`[0, 1]`; the payload after the first colon has every `%` character
removed (not only trailing ones) before parsing; a parsed value above
1.0 is divided by 100, so `"87%"` yields 0.87 and `"1.5"` yields 0.015;
a parse failure leaves the previous default 0.0 unchanged. -/
theorem extract_judgment_confidence_range :
    (∀ s : String, 0 ≤ (extract_judgment s).confidence ∧
      (extract_judgment s).confidence ≤ 1) ∧
    (extract_judgment "CONFIDENCE: 87%").confidence = 87/100 ∧
    (extract_judgment "CONFIDENCE: 1.5").confidence = 3/200 := by
  refine ⟨fun s => ?_, ?_, ?_⟩
  · unfold extract_judgment
    split_ifs
    · norm_num
    · exact foldl_processLine_confidence_bounds _ _ (le_refl 0) (by norm_num)
  · have h1 : pySplit '\n' "CONFIDENCE: 87%" = ["CONFIDENCE: 87%"] := by decide
    have h2 : parseDecimalParts
        (pyStrip (pyRemoveAll '%' (pyStrip (afterFirstChar ':' "CONFIDENCE: 87%")))) =
        some (false, ['8', '7'], []) := by decide
    simp only [extract_judgment, if_neg (by decide : ¬("CONFIDENCE: 87%" = "")), h1,
      List.foldl, processLine, parseConfidence, parseDecimal, h2,
      if_neg (by decide : ¬(pyStartsWith (pyUpper "CONFIDENCE: 87%") "VERDICT:" = true)),
      if_pos (by decide : pyStartsWith (pyUpper "CONFIDENCE: 87%") "CONFIDENCE:" = true),
      Option.map_some']
    norm_num [pyMax, pyMin, partsToRat,
      show digitsToNat ['8', '7'] = 87 from by decide,
      show digitsToNat ([] : List Char) = 0 from by decide]
  · have h1 : pySplit '\n' "CONFIDENCE: 1.5" = ["CONFIDENCE: 1.5"] := by decide
    have h2 : parseDecimalParts
        (pyStrip (pyRemoveAll '%' (pyStrip (afterFirstChar ':' "CONFIDENCE: 1.5")))) =
        some (false, ['1'], ['5']) := by decide
    simp only [extract_judgment, if_neg (by decide : ¬("CONFIDENCE: 1.5" = "")), h1,
      List.foldl, processLine, parseConfidence, parseDecimal, h2,
      if_neg (by decide : ¬(pyStartsWith (pyUpper "CONFIDENCE: 1.5") "VERDICT:" = true)),
      if_pos (by decide : pyStartsWith (pyUpper "CONFIDENCE: 1.5") "CONFIDENCE:" = true),
      Option.map_some']
    norm_num [pyMax, pyMin, partsToRat,
      show digitsToNat ['1'] = 1 from by decide,
      show digitsToNat ['5'] = 5 from by decide]

/-- C3 counterexample: on `"CONFIDENCE: 5%0"` the code removes the
interior `%` (`replace('%', '')`) and parses `"50"`, yielding 0.5,
whereas the claimed trailing-`%`-stripping grammar fails to parse
`"5%0"` and would leave the default 0.0 unchanged. -/
theorem confidence_percent_strip_counterexample :
    (extract_judgment "CONFIDENCE: 5%0").confidence = 1/2 ∧
    specTrailingPercentConfidence "CONFIDENCE: 5%0" = none := by
  constructor
  · have h1 : pySplit '\n' "CONFIDENCE: 5%0" = ["CONFIDENCE: 5%0"] := by decide
    have h2 : parseDecimalParts
        (pyStrip (pyRemoveAll '%' (pyStrip (afterFirstChar ':' "CONFIDENCE: 5%0")))) =
        some (false, ['5', '0'], []) := by decide
    simp only [extract_judgment, if_neg (by decide : ¬("CONFIDENCE: 5%0" = "")), h1,
      List.foldl, processLine, parseConfidence, parseDecimal, h2,
      if_neg (by decide : ¬(pyStartsWith (pyUpper "CONFIDENCE: 5%0") "VERDICT:" = true)),
      if_pos (by decide : pyStartsWith (pyUpper "CONFIDENCE: 5%0") "CONFIDENCE:" = true),
      Option.map_some']
    norm_num [pyMax, pyMin, partsToRat,
      show digitsToNat ['5', '0'] = 50 from by decide,
      show digitsToNat ([] : List Char) = 0 from by decide]
  · decide

/-- C7: `extract_judgment` is a total function of the input text, and
each field independently keeps its safe default: verdict INSUFFICIENT
when no line sets a valid verdict, confidence 0.0 when no line sets a
parseable confidence, and the full raw text as reasoning when no line
sets a non-empty reasoning (for non-empty input). -/
theorem extract_judgment_total_defaults (s : String) :
    ((∀ l ∈ pySplit '\n' s, ¬ setsVerdict l) →
      (extract_judgment s).verdict = "INSUFFICIENT") ∧
    ((∀ l ∈ pySplit '\n' s, ¬ setsConfidence l) →
      (extract_judgment s).confidence = 0) ∧
    (s ≠ "" → (∀ l ∈ pySplit '\n' s, ¬ setsReasoning l) →
      (extract_judgment s).reasoning = s) := by
  by_cases hs : s = ""
  · subst hs
    exact ⟨fun _ => rfl, fun _ => rfl, fun h => absurd rfl h⟩
  · unfold extract_judgment
    rw [if_neg hs]
    exact ⟨fun h => foldl_processLine_verdict_const _ _ h,
      fun h => foldl_processLine_confidence_const _ _ h,
      fun _ h => foldl_processLine_reasoning_const _ _ h⟩

/-- C7 witness: free-form text with no labeled field keeps all three
defaults. -/
theorem extract_judgment_total_defaults_witness :
    (extract_judgment "hello world").verdict = "INSUFFICIENT" ∧
    (extract_judgment "hello world").confidence = 0 ∧
    (extract_judgment "hello world").reasoning = "hello world" := by
  have h := extract_judgment_total_defaults "hello world"
  exact ⟨h.1 (by decide), h.2.1 (by decide), h.2.2 (by decide) (by decide)⟩

theorem classifyStep_total (c : Classification) (d : Deliberation) :
    (classifyStep c d).hard_contradictions + (classifyStep c d).soft_contradictions +
      (classifyStep c d).consistent_claims + (classifyStep c d).insufficient_evidence =
    c.hard_contradictions + c.soft_contradictions +
      c.consistent_claims + c.insufficient_evidence + 1 := by
  simp only [classifyStep]
  split_ifs <;> simp <;> omega

theorem foldl_classifyStep_total (ds : List Deliberation) (c : Classification) :
    (ds.foldl classifyStep c).hard_contradictions +
      (ds.foldl classifyStep c).soft_contradictions +
      (ds.foldl classifyStep c).consistent_claims +
      (ds.foldl classifyStep c).insufficient_evidence =
    c.hard_contradictions + c.soft_contradictions +
      c.consistent_claims + c.insufficient_evidence + ds.length := by
  induction ds generalizing c with
  | nil => simp
  | cons d t ih =>
    simp only [List.foldl_cons, List.length_cons]
    rw [ih (classifyStep c d), classifyStep_total]
    omega

/-- C6: for every list of deliberations, the four (non-negative, by the
`Nat` type) counts of `ConstraintTracker.classify_constraints` sum to
the number of deliberations — each final judgment increments exactly one
bucket. -/
theorem classify_constraints_partition (ds : List Deliberation) :
    (classify_constraints ds).hard_contradictions +
      (classify_constraints ds).soft_contradictions +
      (classify_constraints ds).consistent_claims +
      (classify_constraints ds).insufficient_evidence = ds.length := by
  unfold classify_constraints
  rw [foldl_classifyStep_total]
  simp

/-- C4: whenever the classification of the deliberations contains at
least one hard contradiction, `BackstoryScorer.compute_score` returns
label 0 (CONTRADICTORY), for every scoring configuration. -/
theorem scorer_hard_override (cfg : ScoringConfig) (ds : List Deliberation)
    (h : 0 < (classify_constraints ds).hard_contradictions) :
    (compute_score cfg ds).1 = 0 := by
  simp only [compute_score, has_critical_violations]
  rw [if_pos (by simpa using h)]

/-- C4 witness: a classification of one hard contradiction and five
consistent claims yields label 0. -/
theorem scorer_hard_override_witness :
    classify_constraints exampleDeliberations =
      { hard_contradictions := 1, soft_contradictions := 0,
        consistent_claims := 5, insufficient_evidence := 0 } ∧
    (compute_score exampleScoringConfig exampleDeliberations).1 = 0 := by
  have h1 : classify_constraints exampleDeliberations =
      { hard_contradictions := 1, soft_contradictions := 0,
        consistent_claims := 5, insufficient_evidence := 0 } := by
    norm_num +decide [exampleDeliberations, classify_constraints, classifyStep,
      List.replicate, List.foldl]
  exact ⟨h1, scorer_hard_override exampleScoringConfig exampleDeliberations
    (by rw [h1]; exact Nat.one_pos)⟩

theorem pyLen_pos_ne_empty (c : String) (h : 0 < pyLen c) : c ≠ "" := by
  intro he
  subst he
  exact absurd h (by decide)

theorem parseClaims_mem_iff (response c : String) :
    c ∈ parseClaims response ↔
    ∃ rawLine ∈ pySplit '\n' response,
      pyStrip rawLine ≠ "" ∧ startsNumbered (pyStrip rawLine) = true ∧
      c = pyStrip (pyLstrip numberingChars (pyStrip rawLine)) ∧
      c ≠ "" ∧ 15 < pyLen c := by
  unfold parseClaims
  rw [List.mem_filterMap]
  constructor
  · rintro ⟨l, hl, hc⟩
    simp only [claimOfLine] at hc
    split_ifs at hc with h1 h2
    · injection hc with hc
      subst hc
      exact ⟨l, hl, h1.1, h1.2, rfl, h2.1, h2.2⟩
  · rintro ⟨l, hl, h1, h2, hceq, h3, h4⟩
    refine ⟨l, hl, ?_⟩
    subst hceq
    simp only [claimOfLine]
    rw [if_pos ⟨h1, h2⟩, if_pos ⟨h3, h4⟩]

/-- C9 (amended): when parsing the generation response, a
numbered/bulleted line's stripped claim text is kept if and only if it
is non-empty and STRICTLY longer than 15 characters; a stripped claim of
exactly 15 characters is discarded as noise. -/
theorem claim_kept_iff (response c : String) :
    c ∈ parseClaims response ↔
    ∃ rawLine ∈ pySplit '\n' response,
      pyStrip rawLine ≠ "" ∧ startsNumbered (pyStrip rawLine) = true ∧
      c = pyStrip (pyLstrip numberingChars (pyStrip rawLine)) ∧
      c ≠ "" ∧ 15 < pyLen c :=
  parseClaims_mem_iff response c

/-- C9 counterexample: the numbered line `"1. abcdefghijklmno"` strips to
the 15-character claim `"abcdefghijklmno"`, which is non-empty and has
exactly 15 characters — the claim as stated says it is kept, but the
code's `len(claim) > 15` test discards it and the parse yields no
claims. -/
theorem claim_length_15_discarded :
    parseClaims "1. abcdefghijklmno" = [] ∧
    pyStrip (pyLstrip numberingChars (pyStrip "1. abcdefghijklmno")) = "abcdefghijklmno" ∧
    "abcdefghijklmno" ≠ "" ∧ 15 ≤ pyLen "abcdefghijklmno" := by decide

/-- C2 (amended): for every non-empty backstory, a non-falsy generation
response and a configured `max_claims_per_backstory` of at least 1,
`extract_claims` returns at least one claim and every returned claim is
non-empty (parsed claims are longer than 15 characters; if parsing
yields none, the hard fallback emits the first 200 characters of the
backstory).  When the generation response is falsy, only the
sentence-split fallback runs and it can return zero claims. -/
theorem extract_claims_nonempty_of_response (cfg : Nat) (backstory r : String)
    (hcfg : 1 ≤ cfg) (hb : backstory ≠ "") (hr : r ≠ "") :
    1 ≤ (extract_claims cfg backstory (some r)).length ∧
    ∀ c ∈ extract_claims cfg backstory (some r), c ≠ "" := by
  have h5 : 1 ≤ min 5 cfg := le_min (by norm_num) hcfg
  simp only [extract_claims, if_neg hr]
  by_cases hc : parseClaims r = []
  · rw [if_pos hc]
    have ht : List.take (min 5 cfg) [pySlice backstory 200] = [pySlice backstory 200] :=
      List.take_of_length_le (by simpa using h5)
    rw [ht]
    refine ⟨by simp, ?_⟩
    intro c hcmem
    rw [List.mem_singleton] at hcmem
    subst hcmem
    intro hemp
    apply hb
    have hdata : backstory.toList.take 200 = [] := congrArg String.data hemp
    have hnil : backstory.toList = [] := by
      rcases List.take_eq_nil_iff.mp hdata with h | h
      · exact absurd h (by norm_num)
      · exact h
    calc backstory = String.mk backstory.toList := rfl
    _ = String.mk [] := by rw [hnil]
  · rw [if_neg hc]
    constructor
    · rw [List.length_take]
      exact le_min h5 (List.length_pos.mpr hc)
    · intro c hcmem
      have hmem : c ∈ parseClaims r := List.take_subset _ _ hcmem
      obtain ⟨-, -, -, -, -, hne, -⟩ := (parseClaims_mem_iff r c).mp hmem
      exact hne

/-- C2 counterexample: the non-empty backstory `"Hi."` with a failed
(falsy) generation response returns zero claims — the empty-response
path runs only the sentence-split fallback (no sentence longer than 20
characters survives) and never reaches the first-200-characters hard
fallback. -/
theorem extract_claims_empty_counterexample :
    extract_claims 5 "Hi." none = [] ∧ "Hi." ≠ "" := by decide

/-- C10: on every path (parse, sentence-split fallback, hard fallback)
`extract_claims` returns at most `min 5 max_claims_per_backstory`
claims, hence never more than 5, for every configured value. -/
theorem extract_claims_cap (cfg : Nat) (b : String) (r : Option String) :
    (extract_claims cfg b r).length ≤ min 5 cfg ∧
    (extract_claims cfg b r).length ≤ 5 := by
  have h : (extract_claims cfg b r).length ≤ min 5 cfg := by
    cases r with
    | none =>
      simp only [extract_claims]
      exact List.length_take_le _ _
    | some r =>
      simp only [extract_claims]
      split_ifs <;> exact List.length_take_le _ _
  exact ⟨h, le_trans h (min_le_left _ _)⟩

/-- C8: the cosine-similarity divisor of `EvidenceRetriever.retrieve` is
NOT guarded against zero norms — for a stored chunk whose embedding is
the zero vector, the code's elementwise division
`dot / (norm(embeddings) * norm(query))` divides by zero. -/
theorem retrieve_zero_norm_division :
    retrieve_divides_by_zero [[0, 0, 0]] [1, 0, 0] = true := by
  norm_num [retrieve_divides_by_zero, cosineDenomSq, normSq]

/-- C2 witness: a non-empty backstory with a parsed numbered response
yields at least one non-empty claim. -/
theorem extract_claims_nonempty_of_response_witness :
    1 ≤ (extract_claims 5 "A man from Paris."
      (some "1. He was born in Paris in 1900.")).length ∧
    ∀ c ∈ extract_claims 5 "A man from Paris."
      (some "1. He was born in Paris in 1900."), c ≠ "" :=
  extract_claims_nonempty_of_response 5 "A man from Paris."
    "1. He was born in Paris in 1900." (by norm_num) (by decide) (by decide)
